import Mathlib

/-!
Shallow embedding of the CloudFormation wait/poll subsystem
(`aws/internal/service/cloudformation/waiter/waiter.go`) and of the MSK
connector read handler (`aws/resource_aws_msk_connector.go`) of the
terraform-provider-aws excerpt, together with proofs about the embedded
definitions.

Conventions of the embedding:
* Go `*string` fields become `Option String`; `aws.StringValue` becomes
  `stringValue` (dereference with `""` for nil).
* The generic state-change helper `resource.StateChangeConf.WaitForState`
  from the host framework, the paginated event lister
  `lister.ListStackEventsForOperation`, the SDK pagination helper
  `ListStackSetOperationResultsPages` and `tfresource.SetLastError` are not
  part of the excerpt; they are modelled from the specification (see the
  doc comments marked "Modelled from the spec").  Everything else is a
  direct translation of the Go source.
* Errors are represented structurally: each distinct `fmt.Errorf` message
  shape of the source becomes a constructor carrying the formatted pieces.
* Time is counted in abstract units, one unit per poll; the spec leaves
  the backoff curve as an implementation freedom, so the model charges one
  unit of elapsed time per refresh call and compares it with the timeout.
-/

/-- Dereference of a Go string pointer, as `aws.StringValue`: `none`
(a nil pointer) reads as the empty string. -/
def stringValue : Option String → String
  | none => ""
  | some s => s

/-! ## AWS SDK status string constants (values of the Go constants used
by the waiter package). -/

def StackStatusCreateInProgress : String := "CREATE_IN_PROGRESS"
def StackStatusCreateComplete : String := "CREATE_COMPLETE"
def StackStatusCreateFailed : String := "CREATE_FAILED"
def StackStatusDeleteInProgress : String := "DELETE_IN_PROGRESS"
def StackStatusDeleteComplete : String := "DELETE_COMPLETE"
def StackStatusDeleteFailed : String := "DELETE_FAILED"
def StackStatusRollbackInProgress : String := "ROLLBACK_IN_PROGRESS"
def StackStatusRollbackComplete : String := "ROLLBACK_COMPLETE"
def StackStatusRollbackFailed : String := "ROLLBACK_FAILED"
def StackStatusUpdateInProgress : String := "UPDATE_IN_PROGRESS"
def StackStatusUpdateComplete : String := "UPDATE_COMPLETE"
def StackStatusUpdateCompleteCleanupInProgress : String :=
  "UPDATE_COMPLETE_CLEANUP_IN_PROGRESS"
def StackStatusUpdateRollbackInProgress : String := "UPDATE_ROLLBACK_IN_PROGRESS"
def StackStatusUpdateRollbackComplete : String := "UPDATE_ROLLBACK_COMPLETE"
def StackStatusUpdateRollbackCompleteCleanupInProgress : String :=
  "UPDATE_ROLLBACK_COMPLETE_CLEANUP_IN_PROGRESS"
def StackStatusUpdateRollbackFailed : String := "UPDATE_ROLLBACK_FAILED"

def ChangeSetStatusCreateInProgress : String := "CREATE_IN_PROGRESS"
def ChangeSetStatusCreatePending : String := "CREATE_PENDING"
def ChangeSetStatusCreateComplete : String := "CREATE_COMPLETE"
def ChangeSetStatusFailed : String := "FAILED"

def StackSetOperationStatusRunning : String := "RUNNING"
def StackSetOperationStatusSucceeded : String := "SUCCEEDED"
def StackSetOperationStatusFailed : String := "FAILED"

def ResourceStatusDeleteInProgress : String := "DELETE_IN_PROGRESS"

/-! ## Poll policies

The pending/target status sets of the `resource.StateChangeConf` literals
of the source.  The timeout is a separate runtime parameter (three of the
waiters take it as an argument). -/

structure PollPolicy where
  pending : List String
  target : List String
deriving DecidableEq, Repr

/-- Pending/Target sets of `ChangeSetCreated` (waiter.go lines 23-28). -/
def changeSetCreatedPolicy : PollPolicy :=
  ⟨[ChangeSetStatusCreateInProgress, ChangeSetStatusCreatePending],
   [ChangeSetStatusCreateComplete]⟩

/-- Pending/Target sets of `StackSetOperationSucceeded` (waiter.go lines 62-68). -/
def stackSetOperationPolicy : PollPolicy :=
  ⟨[StackSetOperationStatusRunning], [StackSetOperationStatusSucceeded]⟩

/-- Pending/Target sets of `StackCreated` (waiter.go lines 121-139). -/
def stackCreatedPolicy : PollPolicy :=
  ⟨[StackStatusCreateInProgress, StackStatusDeleteInProgress,
    StackStatusRollbackInProgress],
   [StackStatusCreateComplete, StackStatusCreateFailed,
    StackStatusDeleteComplete, StackStatusDeleteFailed,
    StackStatusRollbackComplete, StackStatusRollbackFailed]⟩

/-- Pending/Target sets of `StackUpdated` (waiter.go lines 183-200). -/
def stackUpdatedPolicy : PollPolicy :=
  ⟨[StackStatusUpdateCompleteCleanupInProgress, StackStatusUpdateInProgress,
    StackStatusUpdateRollbackInProgress,
    StackStatusUpdateRollbackCompleteCleanupInProgress],
   [StackStatusCreateComplete, StackStatusUpdateComplete,
    StackStatusUpdateRollbackComplete, StackStatusUpdateRollbackFailed]⟩

/-- Pending/Target sets of `StackDeleted` (waiter.go lines 226-239). -/
def stackDeletedPolicy : PollPolicy :=
  ⟨[StackStatusDeleteInProgress, StackStatusRollbackInProgress],
   [StackStatusDeleteComplete, StackStatusDeleteFailed]⟩

/-- The static per-operation policy table of the waiter package. -/
def opPolicies : List PollPolicy :=
  [changeSetCreatedPolicy, stackSetOperationPolicy, stackCreatedPolicy,
   stackUpdatedPolicy, stackDeletedPolicy]

/-! ## The wait state machine -/

/-- Summary record of one stack-set operation result
(`cloudformation.StackSetOperationResultSummary`); the waiter source never
inspects its fields, it only accumulates the records. -/
structure StackSetOperationResultSummary where
  account : Option String
  status : Option String
  statusReason : Option String
deriving DecidableEq, Repr

/-- Kind of error a wait can end with: timeout, an unrecognized status
outside both status sets, or a hard refresher error. -/
inductive WaitErrKind where
  | timedOut (lastState : Option String)
  | unexpectedState (state : String)
  | refreshFailed (msg : String)
deriving DecidableEq, Repr

/-- Secondary diagnostic attached to a wait error by the callers of the
wait (the argument of `tfresource.SetLastError` at each call site). -/
inductive SecondaryError where
  | statusReason (reason : String)
  | operationResults (operationID : String)
      (summaries : List StackSetOperationResultSummary)
  | listResultsError (stackSetName operationID : String) (listErr : String)
deriving DecidableEq, Repr

/-- Error returned by the wait state machine, with the slot that
`tfresource.SetLastError` fills in. -/
structure WaitErr where
  kind : WaitErrKind
  lastError : Option SecondaryError
deriving DecidableEq, Repr

/-- Modelled from the spec: `tfresource.SetLastError` (not part of the
excerpt) attaches a secondary diagnostic to a wait error as its last
error, keeping an already-present last error and leaving a nil error
unchanged, so the secondary failure is wrapped rather than swallowed. -/
def setLastError (e : Option WaitErr) (sec : SecondaryError) : Option WaitErr :=
  match e with
  | none => none
  | some w =>
    some ⟨w.kind, if w.lastError.isSome then w.lastError else some sec⟩

/-- Modelled from the spec: the poll loop of
`resource.StateChangeConf.WaitForState` (host framework, not part of the
excerpt), following section 4.2 of the specification.  Each list element
is one refresher outcome (a snapshot, or a hard refresher error); one
abstract time unit elapses per poll.  Exits with the snapshot and no
error on a target status; keeps polling on a pending status; fails fast
on an unrecognized status; returns the last observed snapshot together
with the error on timeout (also when the scripted refresh outcomes run
out) and on a hard refresher error. -/
def WaitForStateLoop {α : Type} (pending target : List String)
    (timeout : Nat) (getStatus : α → String) :
    List (Except String α) → Nat → Option α → Option α × Option WaitErr
  | [], _, last => (last, some ⟨.timedOut (last.map getStatus), none⟩)
  | poll :: rest, elapsed, last =>
    if timeout ≤ elapsed then
      (last, some ⟨.timedOut (last.map getStatus), none⟩)
    else
      match poll with
      | .error msg => (last, some ⟨.refreshFailed msg, none⟩)
      | .ok raw =>
        if getStatus raw ∈ target then (some raw, none)
        else if getStatus raw ∈ pending then
          WaitForStateLoop pending target timeout getStatus rest
            (elapsed + 1) (some raw)
        else (some raw, some ⟨.unexpectedState (getStatus raw), none⟩)

/-- Modelled from the spec: entry point of the wait state machine; starts
the poll loop with no elapsed time and no observed snapshot. -/
def WaitForState {α : Type} (pending target : List String) (timeout : Nat)
    (getStatus : α → String) (polls : List (Except String α)) :
    Option α × Option WaitErr :=
  WaitForStateLoop pending target timeout getStatus polls 0 none

/-! ## Event stream, pagination and failure classifiers -/

/-- One stack event record (`cloudformation.StackEvent`), restricted to
the fields the waiter package reads. -/
structure StackEvent where
  resourceStatus : Option String
  resourceStatusReason : Option String
  resourceType : Option String
deriving DecidableEq, Repr

/-- Modelled from the spec: the remote paginated-events API behind
`lister.ListStackEventsForOperation` (not part of the excerpt).  `pages`
are the successfully fetched pages of the operation's event records, in
the API's native order; `pageErr`, when present, is the paging error hit
after those pages. -/
structure PagedEvents where
  pages : List (List StackEvent)
  pageErr : Option String
deriving DecidableEq, Repr

/-- Modelled from the spec: `lister.ListStackEventsForOperation` (not part
of the excerpt), the event paginator of section 4.3.  It invokes the
callback on every record of every successfully fetched page, page by page
in order, and returns the paging error (or none); accumulation is the
callback's own side effect, threaded here as a fold state. -/
def ListStackEventsForOperation {σ : Type} (api : PagedEvents)
    (f : σ → StackEvent → σ) (init : σ) : σ × Option String :=
  (api.pages.foldl (fun acc page => page.foldl f acc) init, api.pageErr)

/-- Translation of `isFailedEvent` (waiter.go lines 317-319): the resource
status ends with `_FAILED` (Go `strings.HasSuffix`, taken on the
character lists so that it evaluates by reduction) and the reason
pointer is non-nil. -/
def isFailedEvent (e : StackEvent) : Bool :=
  "_FAILED".data.isSuffixOf (stringValue e.resourceStatus).data
    && e.resourceStatusReason.isSome

/-- Translation of `isRollbackEvent` (waiter.go lines 321-323): the
resource status starts with `ROLLBACK_` (Go `strings.HasPrefix`, taken
on the character lists so that it evaluates by reduction) and the
reason pointer is non-nil. -/
def isRollbackEvent (e : StackEvent) : Bool :=
  "ROLLBACK_".data.isPrefixOf (stringValue e.resourceStatus).data
    && e.resourceStatusReason.isSome

/-- Translation of `isStackDeletionEvent` (waiter.go lines 325-329): the
top-level stack's own delete-in-progress event with a non-nil reason. -/
def isStackDeletionEvent (e : StackEvent) : Bool :=
  stringValue e.resourceStatus == ResourceStatusDeleteInProgress
    && stringValue e.resourceType == "AWS::CloudFormation::Stack"
    && e.resourceStatusReason.isSome

/-- Translation of `getCloudFormationDeletionReasons` (waiter.go lines
285-294). -/
def getCloudFormationDeletionReasons (api : PagedEvents) :
    List String × Option String :=
  ListStackEventsForOperation api
    (fun failures e =>
      if isFailedEvent e || isStackDeletionEvent e then
        failures ++ [stringValue e.resourceStatusReason]
      else failures)
    []

/-- Translation of `getCloudFormationRollbackReasons` (waiter.go lines
296-304). -/
def getCloudFormationRollbackReasons (api : PagedEvents) :
    List String × Option String :=
  ListStackEventsForOperation api
    (fun failures e =>
      if isFailedEvent e || isRollbackEvent e then
        failures ++ [stringValue e.resourceStatusReason]
      else failures)
    []

/-- Translation of `getCloudFormationFailures` (waiter.go lines 306-315). -/
def getCloudFormationFailures (api : PagedEvents) :
    List String × Option String :=
  ListStackEventsForOperation api
    (fun failures e =>
      if isFailedEvent e then
        failures ++ [stringValue e.resourceStatusReason]
      else failures)
    []

/-! ## The exported wait operations -/

/-- Point-in-time description of a stack (`cloudformation.Stack`),
restricted to what the waiter reads. -/
structure Stack where
  stackStatus : Option String
deriving DecidableEq, Repr

/-- Modelled from the spec: the status a refresher derives from a stack
snapshot (the `StackStatus` status function, not part of the excerpt). -/
def stackRefreshStatus (s : Stack) : String :=
  stringValue s.stackStatus

/-- Result of `DescribeChangeSet` (`cloudformation.DescribeChangeSetOutput`),
restricted to what the waiter reads. -/
structure DescribeChangeSetOutput where
  status : Option String
  statusReason : Option String
deriving DecidableEq, Repr

/-- Modelled from the spec: the status a refresher derives from a
change-set snapshot (the `ChangeSetStatus` status function, not part of
the excerpt). -/
def changeSetRefreshStatus (o : DescribeChangeSetOutput) : String :=
  stringValue o.status

/-- Stack-set operation snapshot (`cloudformation.StackSetOperation`),
restricted to what the waiter reads. -/
structure StackSetOperation where
  status : Option String
deriving DecidableEq, Repr

/-- Modelled from the spec: the status a refresher derives from a
stack-set operation snapshot (the `StackSetOperationStatus` status
function, not part of the excerpt). -/
def stackSetOperationRefreshStatus (o : StackSetOperation) : String :=
  stringValue o.status

/-- Message prefix of the rollback branch of `StackCreated`. -/
def msgCreateRollback : String :=
  "failed to create CloudFormation stack, rollback requested"

/-- Message prefix of the delete branch of `StackCreated`. -/
def msgCreateDelete : String :=
  "failed to create CloudFormation stack, delete requested"

/-- Message prefix of the create-failed branch of `StackCreated`. -/
def msgCreate : String := "failed to create CloudFormation stack"

/-- Message prefix of the rollback branch of `StackUpdated`. -/
def msgUpdate : String := "failed to update CloudFormation stack"

/-- Message prefix of the delete-failed branch of `StackDeleted`. -/
def msgDelete : String := "failed to delete CloudFormation stack"

/-- Structural embedding of the error values the stack waiters build with
`fmt.Errorf`: the wait error passed through, the
`"<msg> (<status>): <reasons>"` report, and the
`"<msg> (<status>). Got an error reading failure information: <err>"`
wrapper for a failed reason lookup. -/
inductive CfnError where
  | waitError (w : WaitErr)
  | reasonsError (opMsg lastStatus : String) (reasons : List String)
  | readInfoError (opMsg lastStatus : String) (readErr : String)
deriving DecidableEq, Repr

/-- Reason strings carried by a stack-waiter error (empty for the error
shapes that embed no reason list). -/
def CfnError.reasonList : CfnError → List String
  | .reasonsError _ _ reasons => reasons
  | _ => []

/-- Terminal-status classification of `StackCreated` (waiter.go lines
151-177): the `switch lastStatus` whose every branch returns the stack
together with an error — rollback, deletion or plain-failure reasons,
a wrapper when the reason lookup itself fails, and no error for the
non-failure target statuses. -/
def stackCreatedClassify (stack : Stack) (events : PagedEvents) :
    Option CfnError :=
  let lastStatus := stringValue stack.stackStatus
  if lastStatus == StackStatusRollbackComplete
      || lastStatus == StackStatusRollbackFailed then
    match getCloudFormationRollbackReasons events with
    | (_, some e) => some (.readInfoError msgCreateRollback lastStatus e)
    | (reasons, none) => some (.reasonsError msgCreateRollback lastStatus reasons)
  else if lastStatus == StackStatusDeleteComplete
      || lastStatus == StackStatusDeleteFailed then
    match getCloudFormationDeletionReasons events with
    | (_, some e) => some (.readInfoError msgCreateDelete lastStatus e)
    | (reasons, none) => some (.reasonsError msgCreateDelete lastStatus reasons)
  else if lastStatus == StackStatusCreateFailed then
    match getCloudFormationFailures events with
    | (_, some e) => some (.readInfoError msgCreate lastStatus e)
    | (reasons, none) => some (.reasonsError msgCreate lastStatus reasons)
  else none

/-- Translation of `StackCreated` (waiter.go lines 120-180): wait with the
create policy, return `(nil, err)` on a wait error or a snapshot of an
unexpected type, then classify the terminal status. -/
def StackCreated (timeout : Nat) (polls : List (Except String Stack))
    (events : PagedEvents) : Option Stack × Option CfnError :=
  match WaitForState stackCreatedPolicy.pending stackCreatedPolicy.target
      timeout stackRefreshStatus polls with
  | (_, some w) => (none, some (.waitError w))
  | (none, none) => (none, none)
  | (some stack, none) => (some stack, stackCreatedClassify stack events)

/-- Terminal-status classification of `StackUpdated` (waiter.go lines
212-220). -/
def stackUpdatedClassify (stack : Stack) (events : PagedEvents) :
    Option CfnError :=
  let lastStatus := stringValue stack.stackStatus
  if lastStatus == StackStatusUpdateRollbackComplete
      || lastStatus == StackStatusUpdateRollbackFailed then
    match getCloudFormationRollbackReasons events with
    | (_, some e) => some (.readInfoError msgUpdate lastStatus e)
    | (reasons, none) => some (.reasonsError msgUpdate lastStatus reasons)
  else none

/-- Translation of `StackUpdated` (waiter.go lines 182-223). -/
def StackUpdated (timeout : Nat) (polls : List (Except String Stack))
    (events : PagedEvents) : Option Stack × Option CfnError :=
  match WaitForState stackUpdatedPolicy.pending stackUpdatedPolicy.target
      timeout stackRefreshStatus polls with
  | (_, some w) => (none, some (.waitError w))
  | (none, none) => (none, none)
  | (some stack, none) => (some stack, stackUpdatedClassify stack events)

/-- Terminal-status classification of `StackDeleted` (waiter.go lines
251-259). -/
def stackDeletedClassify (stack : Stack) (events : PagedEvents) :
    Option CfnError :=
  let lastStatus := stringValue stack.stackStatus
  if lastStatus == StackStatusDeleteFailed then
    match getCloudFormationFailures events with
    | (_, some e) => some (.readInfoError msgDelete lastStatus e)
    | (reasons, none) => some (.reasonsError msgDelete lastStatus reasons)
  else none

/-- Translation of `StackDeleted` (waiter.go lines 225-262). -/
def StackDeleted (timeout : Nat) (polls : List (Except String Stack))
    (events : PagedEvents) : Option Stack × Option CfnError :=
  match WaitForState stackDeletedPolicy.pending stackDeletedPolicy.target
      timeout stackRefreshStatus polls with
  | (_, some w) => (none, some (.waitError w))
  | (none, none) => (none, none)
  | (some stack, none) => (some stack, stackDeletedClassify stack events)

/-- Timeout of `ChangeSetCreated` (5 minutes), in abstract poll units. -/
def ChangeSetCreatedTimeout : Nat := 300

/-- Translation of `ChangeSetCreated` (waiter.go lines 22-41): the raw
wait output is returned whenever it has the expected type, together with
the wait error; when its status is the change-set `FAILED` status, the
status reason is attached to the wait error as its last error. -/
def ChangeSetCreated (polls : List (Except String DescribeChangeSetOutput)) :
    Option DescribeChangeSetOutput × Option WaitErr :=
  match WaitForState changeSetCreatedPolicy.pending
      changeSetCreatedPolicy.target ChangeSetCreatedTimeout
      changeSetRefreshStatus polls with
  | (some output, err) =>
    if stringValue output.status == ChangeSetStatusFailed then
      (some output,
       setLastError err (.statusReason (stringValue output.statusReason)))
    else (some output, err)
  | (none, err) => (none, err)

/-- Modelled from the spec: the remote paginated stack-set operation
results API behind the SDK helper `ListStackSetOperationResultsPages`.
`pages` are the successfully fetched pages in order (a page may be nil,
which the source's callback skips); `pageErr`, when present, is the
paging error hit after those pages. -/
structure ResultsApi where
  pages : List (Option (List StackSetOperationResultSummary))
  pageErr : Option String
deriving DecidableEq, Repr

/-- Accumulation loop of the source's page callback (waiter.go lines
80-88): a nil page is skipped, otherwise the page's summaries are
appended; the callback returns `!lastPage`, so every fetched page is
consumed and iteration stops at the last one. -/
def appendSummaryPages
    (pages : List (Option (List StackSetOperationResultSummary)))
    (acc : List StackSetOperationResultSummary) :
    List StackSetOperationResultSummary :=
  match pages with
  | [] => acc
  | none :: rest => appendSummaryPages rest acc
  | some s :: rest => appendSummaryPages rest (acc ++ s)

/-- Modelled from the spec: the SDK pagination helper
`ListStackSetOperationResultsPages` driving the source's callback —
delivers each fetched page in order and returns the paging error, if
any, after the delivered pages. -/
def ListStackSetOperationResultsPages (api : ResultsApi) :
    List StackSetOperationResultSummary × Option String :=
  (appendSummaryPages api.pages [], api.pageErr)

/-- Translation of `StackSetOperationSucceeded` (waiter.go lines 61-101):
wait with the stack-set policy; when the final status is `FAILED`, list
the operation results and attach either the formatted results or the
listing error to the wait error as its last error. -/
def StackSetOperationSucceeded (timeout : Nat)
    (polls : List (Except String StackSetOperation))
    (stackSetName operationID : String) (results : ResultsApi) :
    Option StackSetOperation × Option WaitErr :=
  match WaitForState stackSetOperationPolicy.pending
      stackSetOperationPolicy.target timeout stackSetOperationRefreshStatus
      polls with
  | (some output, waitErr) =>
    if stringValue output.status == StackSetOperationStatusFailed then
      match ListStackSetOperationResultsPages results with
      | (summaries, none) =>
        (some output,
         setLastError waitErr (.operationResults operationID summaries))
      | (_, some listErr) =>
        (some output,
         setLastError waitErr
           (.listResultsError stackSetName operationID listErr))
    else (some output, waitErr)
  | (none, waitErr) => (none, waitErr)

/-! ## MSK connector read handler -/

/-- Value written into a Terraform attribute by `d.Set` in the read
handler: the source passes string pointers, integer pointers and pointer
slices straight from the SDK response. -/
inductive AttrVal where
  | str (s : Option String)
  | int (n : Option Int)
  | strList (l : List (Option String))
deriving DecidableEq, Repr

/-- Result of `DescribeConnector`
(`kafkaconnect.DescribeConnectorOutput`), with the nested pointer chains
the read handler dereferences unconditionally flattened into one record. -/
structure Connector where
  connectorArn : Option String
  connectorName : Option String
  connectorDescription : Option String
  mcuCount : Option Int
  workerCount : Option Int
  authenticationType : Option String
  encryptionType : Option String
  bootstrapServers : Option String
  securityGroups : List (Option String)
  subnets : List (Option String)
  kafkaConnectVersion : Option String
  cloudWatchLogGroup : Option String
  firehoseDeliveryStream : Option String
  s3LogBucket : Option String
  s3LogPrefix : Option String
  serviceExecutionRoleArn : Option String
deriving DecidableEq, Repr

/-- One diagnostic, as produced by `diag.FromErr`. -/
inductive Diag where
  | fromErr (msg : String)
deriving DecidableEq, Repr

/-- Terraform resource state handle (`schema.ResourceData`): the resource
ID plus the attribute assignments written with `d.Set`. -/
structure ResourceData where
  id : String
  attrs : List (String × AttrVal)
deriving DecidableEq, Repr

/-- One `d.Set` call: replace the attribute if the key is present,
append it otherwise. -/
def setAttr (attrs : List (String × AttrVal)) (k : String) (v : AttrVal) :
    List (String × AttrVal) :=
  if attrs.any (fun p => p.1 == k) then
    attrs.map (fun p => if p.1 == k then (k, v) else p)
  else attrs ++ [(k, v)]

/-- The `fields` map literal of `resourceAwsMskConnectorRead`
(resource_aws_msk_connector.go lines 159-176), in its textual order; the
keys are distinct, so the attribute state the loop produces does not
depend on Go's map iteration order.  The `plugins_arns` entry reads
`c.ServiceExecutionRoleArn`, exactly as the source does. -/
def connectorFields (c : Connector) : List (String × AttrVal) :=
  [("connector_name", .str c.connectorName),
   ("connector_description", .str c.connectorDescription),
   ("mcu_count", .int c.mcuCount),
   ("workers_count", .int c.workerCount),
   ("auth_type", .str c.authenticationType),
   ("encryption_type", .str c.encryptionType),
   ("bootstrap_servers", .str c.bootstrapServers),
   ("security_groups", .strList c.securityGroups),
   ("subnets", .strList c.subnets),
   ("kafka_connect_version", .str c.kafkaConnectVersion),
   ("cw_log_group", .str c.cloudWatchLogGroup),
   ("firehose_log_delivery_stream", .str c.firehoseDeliveryStream),
   ("s3_log_bucket", .str c.s3LogBucket),
   ("s3_log_prefix", .str c.s3LogPrefix),
   ("execution_role_arn", .str c.serviceExecutionRoleArn),
   ("plugins_arns", .str c.serviceExecutionRoleArn)]

/-- Translation of `resourceAwsMskConnectorRead`
(resource_aws_msk_connector.go lines 142-188).  The describe call's
outcome is passed in as data.  On any describe error the resource ID is
set to the empty string and the error diagnostics are returned; on
success the ID is set to `*c.ConnectorArn` (`none` models the nil-pointer
panic of that dereference) and the fields are written.  The `d.Set`
calls themselves are modelled as always succeeding, so the success
branch returns no diagnostics. -/
def resourceAwsMskConnectorRead (d : ResourceData)
    (describeResult : Except String Connector) :
    Option (ResourceData × List Diag) :=
  match describeResult with
  | .error err => some (⟨"", d.attrs⟩, [Diag.fromErr err])
  | .ok c =>
    match c.connectorArn with
    | none => none
    | some arn =>
      some
        (⟨arn,
          (connectorFields c).foldl (fun a kv => setAttr a kv.1 kv.2) d.attrs⟩,
         [])

/-! ## Definitions following the claim wording (for refinement
comparison only)

These do not embed source code; each renders the event filter exactly as
the corresponding specification sentence words it, to be compared with
the translated source predicates above. -/

/-- The create-failure filter as the specification words it: status ends
with `_FAILED` and the reason string is non-empty. -/
def isFailedEventSpec (e : StackEvent) : Bool :=
  "_FAILED".data.isSuffixOf (stringValue e.resourceStatus).data
    && stringValue e.resourceStatusReason != ""

/-- The rollback filter as the specification words it: status ends with
`_FAILED` or starts with `ROLLBACK_`, and the reason string is
non-empty. -/
def isRollbackOrFailedEventSpec (e : StackEvent) : Bool :=
  ("_FAILED".data.isSuffixOf (stringValue e.resourceStatus).data
      || "ROLLBACK_".data.isPrefixOf (stringValue e.resourceStatus).data)
    && stringValue e.resourceStatusReason != ""

/-- The deletion filter as the claim words it: status ends with
`_FAILED` (with no condition on the reason), or the event is the
top-level stack's delete-in-progress event with a non-empty reason. -/
def isDeletionEventSpec (e : StackEvent) : Bool :=
  "_FAILED".data.isSuffixOf (stringValue e.resourceStatus).data
    || (stringValue e.resourceType == "AWS::CloudFormation::Stack"
        && stringValue e.resourceStatus == ResourceStatusDeleteInProgress
        && stringValue e.resourceStatusReason != "")

/-! ## Helper lemmas -/

/-- Folding the filter-and-append accumulation of the reason getters over
one page collects exactly the filtered, mapped records, in order. -/
theorem foldl_reasonCollect {α β : Type} (p : α → Bool) (g : α → β)
    (l : List α) : ∀ acc : List β,
    l.foldl (fun a e => if p e then a ++ [g e] else a) acc
      = acc ++ (l.filter p).map g := by
  induction l with
  | nil => intro acc; simp
  | cons e l ih =>
    intro acc
    by_cases h : p e
    · simp [h, ih]
    · simp [h, ih]

/-- Folding the filter-and-append accumulation over a page list collects
exactly the filtered, mapped records of the joined pages, in page
order. -/
theorem foldl_pages_reasonCollect {α β : Type} (p : α → Bool) (g : α → β)
    (pages : List (List α)) : ∀ acc : List β,
    pages.foldl
        (fun a page => page.foldl (fun a e => if p e then a ++ [g e] else a) a)
        acc
      = acc ++ (pages.flatten.filter p).map g := by
  induction pages with
  | nil => intro acc; simp
  | cons pg pages ih =>
    intro acc
    rw [List.foldl_cons, foldl_reasonCollect, ih]
    simp [List.filter_append, List.append_assoc]

/-- Folding plain record collection over one page appends the page. -/
theorem foldl_collect {α : Type} (l : List α) : ∀ acc : List α,
    l.foldl (fun a e => a ++ [e]) acc = acc ++ l := by
  induction l with
  | nil => intro acc; simp
  | cons e l ih => intro acc; simp [ih]

/-- Folding plain record collection over a page list joins the pages in
order: every record of every page appears exactly once, in page order. -/
theorem foldl_pages_collect {α : Type} (pages : List (List α)) :
    ∀ acc : List α,
    pages.foldl (fun a page => page.foldl (fun a e => a ++ [e]) a) acc
      = acc ++ pages.flatten := by
  induction pages with
  | nil => intro acc; simp
  | cons pg pages ih =>
    intro acc
    rw [List.foldl_cons, foldl_collect, ih]
    simp [List.append_assoc]

/-- The stack-set results page loop appends exactly the records of the
non-nil pages, in page order. -/
theorem appendSummaryPages_eq
    (pages : List (Option (List StackSetOperationResultSummary))) :
    ∀ acc, appendSummaryPages pages acc = acc ++ (pages.filterMap id).flatten := by
  induction pages with
  | nil => intro acc; simp [appendSummaryPages]
  | cons p rest ih =>
    intro acc
    cases p with
    | none => simp [appendSummaryPages, ih]
    | some s => simp [appendSummaryPages, ih]

/-- The poll loop, fed pending snapshots followed by one target snapshot
within the timeout, exits at the target snapshot with no error. -/
theorem waitLoop_reaches_target {α : Type} (pending target : List String)
    (timeout : Nat) (getStatus : α → String) (ps : List α) :
    ∀ (final : α) (elapsed : Nat) (last : Option α),
    (∀ a ∈ ps, getStatus a ∈ pending ∧ getStatus a ∉ target) →
    getStatus final ∈ target →
    elapsed + ps.length < timeout →
    WaitForStateLoop pending target timeout getStatus
      ((ps ++ [final]).map Except.ok) elapsed last = (some final, none) := by
  induction ps with
  | nil =>
    intro final elapsed last _ hfin hlen
    simp only [List.length_nil, Nat.add_zero] at hlen
    simp [WaitForStateLoop, Nat.not_le.mpr hlen, hfin]
  | cons a ps ih =>
    intro final elapsed last hps hfin hlen
    have ha := hps a (by simp)
    have hlt : elapsed < timeout := by
      simp only [List.length_cons] at hlen; omega
    simp [WaitForStateLoop, Nat.not_le.mpr hlt, ha.1, ha.2]
    have hrec := ih final (elapsed + 1) (some a)
      (fun b hb => hps b (List.mem_cons_of_mem a hb)) hfin
      (by simp only [List.length_cons] at hlen; omega)
    simpa using hrec

/-- In every policy of the waiter package's table, the pending and target
status sets are disjoint. -/
theorem opPolicies_disjoint : ∀ P ∈ opPolicies, ∀ s ∈ P.pending, s ∉ P.target := by
  decide

/-- A wait error makes `StackCreated` return a nil snapshot with that
error. -/
theorem StackCreated_of_waitErr (timeout : Nat)
    (polls : List (Except String Stack)) (events : PagedEvents)
    (o : Option Stack) (w : WaitErr)
    (h : WaitForState stackCreatedPolicy.pending stackCreatedPolicy.target
      timeout stackRefreshStatus polls = (o, some w)) :
    StackCreated timeout polls events = (none, some (.waitError w)) := by
  unfold StackCreated
  rw [h]
  cases o <;> rfl

/-- A clean wait makes `StackCreated` return the final snapshot with the
classification of its status. -/
theorem StackCreated_of_ok (timeout : Nat)
    (polls : List (Except String Stack)) (events : PagedEvents)
    (stack : Stack)
    (h : WaitForState stackCreatedPolicy.pending stackCreatedPolicy.target
      timeout stackRefreshStatus polls = (some stack, none)) :
    StackCreated timeout polls events
      = (some stack, stackCreatedClassify stack events) := by
  unfold StackCreated
  rw [h]

/-- A wait error makes `StackUpdated` return a nil snapshot with that
error. -/
theorem StackUpdated_of_waitErr (timeout : Nat)
    (polls : List (Except String Stack)) (events : PagedEvents)
    (o : Option Stack) (w : WaitErr)
    (h : WaitForState stackUpdatedPolicy.pending stackUpdatedPolicy.target
      timeout stackRefreshStatus polls = (o, some w)) :
    StackUpdated timeout polls events = (none, some (.waitError w)) := by
  unfold StackUpdated
  rw [h]
  cases o <;> rfl

/-- A clean wait makes `StackUpdated` return the final snapshot with the
classification of its status. -/
theorem StackUpdated_of_ok (timeout : Nat)
    (polls : List (Except String Stack)) (events : PagedEvents)
    (stack : Stack)
    (h : WaitForState stackUpdatedPolicy.pending stackUpdatedPolicy.target
      timeout stackRefreshStatus polls = (some stack, none)) :
    StackUpdated timeout polls events
      = (some stack, stackUpdatedClassify stack events) := by
  unfold StackUpdated
  rw [h]

/-- A wait error makes `StackDeleted` return a nil snapshot with that
error. -/
theorem StackDeleted_of_waitErr (timeout : Nat)
    (polls : List (Except String Stack)) (events : PagedEvents)
    (o : Option Stack) (w : WaitErr)
    (h : WaitForState stackDeletedPolicy.pending stackDeletedPolicy.target
      timeout stackRefreshStatus polls = (o, some w)) :
    StackDeleted timeout polls events = (none, some (.waitError w)) := by
  unfold StackDeleted
  rw [h]
  cases o <;> rfl

/-- A clean wait makes `StackDeleted` return the final snapshot with the
classification of its status. -/
theorem StackDeleted_of_ok (timeout : Nat)
    (polls : List (Except String Stack)) (events : PagedEvents)
    (stack : Stack)
    (h : WaitForState stackDeletedPolicy.pending stackDeletedPolicy.target
      timeout stackRefreshStatus polls = (some stack, none)) :
    StackDeleted timeout polls events
      = (some stack, stackDeletedClassify stack events) := by
  unfold StackDeleted
  rw [h]

/-- The change-set waiter always passes the typed raw wait output
through as its snapshot. -/
theorem ChangeSetCreated_fst
    (polls : List (Except String DescribeChangeSetOutput)) :
    (ChangeSetCreated polls).1
      = (WaitForState changeSetCreatedPolicy.pending
          changeSetCreatedPolicy.target ChangeSetCreatedTimeout
          changeSetRefreshStatus polls).1 := by
  unfold ChangeSetCreated
  rcases WaitForState changeSetCreatedPolicy.pending
      changeSetCreatedPolicy.target ChangeSetCreatedTimeout
      changeSetRefreshStatus polls with ⟨o, err⟩
  cases o with
  | none => rfl
  | some output =>
    by_cases h : stringValue output.status == ChangeSetStatusFailed
    · simp [h]
    · simp [h]

/-! ## Claim theorems -/

/-- C2: for every poll policy in the waiter package's table and every
status sequence whose prior snapshots carry pending statuses and whose
last snapshot carries a target status, observed with total elapsed time
below the timeout, the wait returns that last snapshot with no error —
target-set membership alone gates loop exit, even when the reached
status is a failure-class status such as CREATE_FAILED (which is in the
target set of the stack-create policy). -/
theorem C2_wait_returns_target {α : Type} (P : PollPolicy)
    (hP : P ∈ opPolicies) (timeout : Nat) (getStatus : α → String)
    (ps : List α) (final : α)
    (hps : ∀ a ∈ ps, getStatus a ∈ P.pending)
    (hfinal : getStatus final ∈ P.target)
    (htime : ps.length < timeout) :
    WaitForState P.pending P.target timeout getStatus
      ((ps ++ [final]).map Except.ok) = (some final, none) := by
  have hdisj := opPolicies_disjoint P hP
  unfold WaitForState
  exact waitLoop_reaches_target P.pending P.target timeout getStatus ps final 0
    none (fun a ha => ⟨hps a ha, hdisj (getStatus a) (hps a ha)⟩) hfinal
    (by omega)

/-- Witness for C2: with the stack-create policy, one pending
CREATE_IN_PROGRESS poll followed by CREATE_FAILED — a failure-class
status in the target set — exits with that status and no error. -/
theorem C2_wait_returns_target_witness :
    WaitForState stackCreatedPolicy.pending stackCreatedPolicy.target 2 id
      ((["CREATE_IN_PROGRESS"] ++ ["CREATE_FAILED"]).map Except.ok)
      = (some "CREATE_FAILED", none) :=
  C2_wait_returns_target stackCreatedPolicy (by decide) 2 id
    ["CREATE_IN_PROGRESS"] "CREATE_FAILED" (by decide) (by decide) (by decide)

/-- Stream of the claims' create-failure example: a failed event with
reason "reason1", a non-failed event with no reason, a failed event with
reason "reason3". -/
def c3ExampleEvents : List StackEvent :=
  [⟨some "CREATE_FAILED", some "reason1", none⟩,
   ⟨some "CREATE_COMPLETE", none, none⟩,
   ⟨some "DELETE_FAILED", some "reason3", none⟩]

/-- A failed event whose reason pointer is present but empty. -/
def emptyReasonFailedEvent : StackEvent :=
  ⟨some "CREATE_FAILED", some "", none⟩

/-- C3 counterexample: on a stream holding one `_FAILED` event whose
reason is present but empty, the classifier keeps the empty reason,
while the claim's filter (reason non-empty) drops the event — so the
classifier does not return exactly the reasons of the claim's filter. -/
theorem C3_counterexample :
    (getCloudFormationFailures ⟨[[emptyReasonFailedEvent]], none⟩).1 = [""]
      ∧ ([emptyReasonFailedEvent].filter isFailedEventSpec).map
          (fun e => stringValue e.resourceStatusReason) = [] := by
  constructor <;> rfl

/-- C3 (amended): the create-failure classifier returns, in event-stream
order, exactly the reasons of the events whose status ends with
`_FAILED` and whose reason is present (non-nil) — an empty-but-present
reason is kept; in particular, on the example stream it returns
["reason1", "reason3"] in that order, skipping the middle event. -/
theorem C3_failures_filter :
    (∀ api : PagedEvents,
      (getCloudFormationFailures api).1
        = (api.pages.flatten.filter isFailedEvent).map
            (fun e => stringValue e.resourceStatusReason))
    ∧ (getCloudFormationFailures ⟨[c3ExampleEvents], none⟩).1
        = ["reason1", "reason3"] := by
  constructor
  · intro api
    simpa [getCloudFormationFailures, ListStackEventsForOperation] using
      foldl_pages_reasonCollect isFailedEvent
        (fun e => stringValue e.resourceStatusReason) api.pages []
  · rfl

/-- Stream of the claims' rollback example: a rollback-in-progress event
with reason "r1", an update-failed event with reason "r2", a
rollback-complete event with no reason. -/
def c4ExampleEvents : List StackEvent :=
  [⟨some "ROLLBACK_IN_PROGRESS", some "r1", none⟩,
   ⟨some "UPDATE_FAILED", some "r2", none⟩,
   ⟨some "ROLLBACK_COMPLETE", none, none⟩]

/-- A rollback event whose reason pointer is present but empty. -/
def emptyReasonRollbackEvent : StackEvent :=
  ⟨some "ROLLBACK_IN_PROGRESS", some "", none⟩

/-- C4 counterexample: on a stream holding one `ROLLBACK_` event whose
reason is present but empty, the rollback classifier keeps the empty
reason, while the claim's filter (reason non-empty) drops the event. -/
theorem C4_counterexample :
    (getCloudFormationRollbackReasons ⟨[[emptyReasonRollbackEvent]], none⟩).1
        = [""]
      ∧ ([emptyReasonRollbackEvent].filter isRollbackOrFailedEventSpec).map
          (fun e => stringValue e.resourceStatusReason) = [] := by
  constructor <;> rfl

/-- C4 (amended): the rollback classifier returns, in event-stream order,
exactly the reasons of the events with a present (non-nil) reason whose
status ends with `_FAILED` or starts with `ROLLBACK_` (the two
predicates OR'ed) — an empty-but-present reason is kept; in particular,
on the example stream it returns ["r1", "r2"], excluding the last event
because its reason is absent. -/
theorem C4_rollback_filter :
    (∀ api : PagedEvents,
      (getCloudFormationRollbackReasons api).1
        = (api.pages.flatten.filter
            (fun e => isFailedEvent e || isRollbackEvent e)).map
            (fun e => stringValue e.resourceStatusReason))
    ∧ (getCloudFormationRollbackReasons ⟨[c4ExampleEvents], none⟩).1
        = ["r1", "r2"] := by
  constructor
  · intro api
    simpa [getCloudFormationRollbackReasons, ListStackEventsForOperation] using
      foldl_pages_reasonCollect (fun e => isFailedEvent e || isRollbackEvent e)
        (fun e => stringValue e.resourceStatusReason) api.pages []
  · rfl

/-- A failed event with no reason pointer at all. -/
def nilReasonFailedEvent : StackEvent :=
  ⟨some "DELETE_FAILED", none, none⟩

/-- The top-level stack's delete-in-progress event with a present but
empty reason. -/
def emptyReasonStackDeletionEvent : StackEvent :=
  ⟨some "DELETE_IN_PROGRESS", some "", some "AWS::CloudFormation::Stack"⟩

/-- A nested sub-resource reporting delete-in-progress with a reason. -/
def subResourceDeletionEvent : StackEvent :=
  ⟨some "DELETE_IN_PROGRESS", some "sub-resource going away",
   some "AWS::S3::Bucket"⟩

/-- C5 counterexample: the deletion classifier drops a `_FAILED` event
whose reason pointer is nil, although the claim's filter (which puts no
reason condition on the `_FAILED` disjunct) keeps it; and it keeps the
top-level delete-in-progress event whose reason is present but empty,
although the claim's filter (reason non-empty) drops it. -/
theorem C5_counterexample :
    (getCloudFormationDeletionReasons ⟨[[nilReasonFailedEvent]], none⟩).1 = []
      ∧ ([nilReasonFailedEvent].filter isDeletionEventSpec).map
          (fun e => stringValue e.resourceStatusReason) = [""]
      ∧ (getCloudFormationDeletionReasons
          ⟨[[emptyReasonStackDeletionEvent]], none⟩).1 = [""]
      ∧ ([emptyReasonStackDeletionEvent].filter isDeletionEventSpec).map
          (fun e => stringValue e.resourceStatusReason) = [] := by
  refine ⟨rfl, rfl, rfl, rfl⟩

/-- C5 (amended): the deletion classifier returns, in event-stream order,
exactly the reasons of the events that either end with `_FAILED` and
carry a present (non-nil) reason, or are the top-level stack's own
delete-in-progress event (resource type `AWS::CloudFormation::Stack`,
delete-in-progress status) with a present reason; an event where only a
nested sub-resource reports delete-in-progress is excluded, as the
concrete conjunct shows. -/
theorem C5_deletion_filter :
    (∀ api : PagedEvents,
      (getCloudFormationDeletionReasons api).1
        = (api.pages.flatten.filter
            (fun e => isFailedEvent e || isStackDeletionEvent e)).map
            (fun e => stringValue e.resourceStatusReason))
    ∧ (getCloudFormationDeletionReasons
        ⟨[[subResourceDeletionEvent]], none⟩).1 = [] := by
  constructor
  · intro api
    simpa [getCloudFormationDeletionReasons, ListStackEventsForOperation] using
      foldl_pages_reasonCollect
        (fun e => isFailedEvent e || isStackDeletionEvent e)
        (fun e => stringValue e.resourceStatusReason) api.pages []
  · rfl

/-- First results page of the pagination example (2 records). -/
def examplePage1 : List StackSetOperationResultSummary :=
  [⟨some "111111111111", some "FAILED", some "why1"⟩,
   ⟨some "222222222222", some "FAILED", some "why2"⟩]

/-- Second and last results page of the pagination example (1 record). -/
def examplePage2 : List StackSetOperationResultSummary :=
  [⟨some "333333333333", some "FAILED", some "why3"⟩]

/-- C8: both paginators visit every record of every fetched page exactly
once, in page order — the event paginator's collected records are the
joined pages and the stack-set results loop accumulates the joined
non-nil pages — and on the example of a 2-record page followed by a
final 1-record page exactly 3 records are processed, in order. -/
theorem C8_pagination :
    (∀ api : PagedEvents,
      (ListStackEventsForOperation api (fun acc e => acc ++ [e]) []).1
        = api.pages.flatten)
    ∧ (∀ api : ResultsApi,
      (ListStackSetOperationResultsPages api).1
        = (api.pages.filterMap id).flatten)
    ∧ (ListStackSetOperationResultsPages
        ⟨[some examplePage1, some examplePage2], none⟩).1
        = examplePage1 ++ examplePage2
    ∧ (examplePage1 ++ examplePage2).length = 3 := by
  refine ⟨?_, ?_, rfl, rfl⟩
  · intro api
    simpa [ListStackEventsForOperation] using foldl_pages_collect api.pages []
  · intro api
    simpa [ListStackSetOperationResultsPages] using
      appendSummaryPages_eq api.pages []

/-- On a rollback terminal status with a failed reason lookup, the
create classification wraps the lookup error with the status. -/
theorem stackCreatedClassify_rollback_readErr (stack : Stack)
    (events : PagedEvents) (e : String)
    (hs : stringValue stack.stackStatus = StackStatusRollbackComplete ∨
      stringValue stack.stackStatus = StackStatusRollbackFailed)
    (he : events.pageErr = some e) :
    stackCreatedClassify stack events
      = some (.readInfoError msgCreateRollback (stringValue stack.stackStatus) e) := by
  rcases hs with h | h <;>
    simp [stackCreatedClassify, getCloudFormationRollbackReasons,
      ListStackEventsForOperation, StackStatusRollbackComplete,
      StackStatusRollbackFailed, h, he]

/-- On a deletion terminal status with a failed reason lookup, the
create classification wraps the lookup error with the status. -/
theorem stackCreatedClassify_delete_readErr (stack : Stack)
    (events : PagedEvents) (e : String)
    (hs : stringValue stack.stackStatus = StackStatusDeleteComplete ∨
      stringValue stack.stackStatus = StackStatusDeleteFailed)
    (he : events.pageErr = some e) :
    stackCreatedClassify stack events
      = some (.readInfoError msgCreateDelete (stringValue stack.stackStatus) e) := by
  rcases hs with h | h <;>
    simp [stackCreatedClassify, getCloudFormationDeletionReasons,
      ListStackEventsForOperation, StackStatusRollbackComplete,
      StackStatusRollbackFailed, StackStatusDeleteComplete,
      StackStatusDeleteFailed, h, he]

/-- On the plain create-failed terminal status with a failed reason
lookup, the create classification wraps the lookup error with the
status. -/
theorem stackCreatedClassify_createFailed_readErr (stack : Stack)
    (events : PagedEvents) (e : String)
    (hs : stringValue stack.stackStatus = StackStatusCreateFailed)
    (he : events.pageErr = some e) :
    stackCreatedClassify stack events
      = some (.readInfoError msgCreate (stringValue stack.stackStatus) e) := by
  simp [stackCreatedClassify, getCloudFormationFailures,
    ListStackEventsForOperation, StackStatusRollbackComplete,
    StackStatusRollbackFailed, StackStatusDeleteComplete,
    StackStatusDeleteFailed, StackStatusCreateFailed, hs, he]

/-- On an update-rollback terminal status with a failed reason lookup,
the update classification wraps the lookup error with the status. -/
theorem stackUpdatedClassify_readErr (stack : Stack)
    (events : PagedEvents) (e : String)
    (hs : stringValue stack.stackStatus = StackStatusUpdateRollbackComplete ∨
      stringValue stack.stackStatus = StackStatusUpdateRollbackFailed)
    (he : events.pageErr = some e) :
    stackUpdatedClassify stack events
      = some (.readInfoError msgUpdate (stringValue stack.stackStatus) e) := by
  rcases hs with h | h <;>
    simp [stackUpdatedClassify, getCloudFormationRollbackReasons,
      ListStackEventsForOperation, StackStatusUpdateRollbackComplete,
      StackStatusUpdateRollbackFailed, h, he]

/-- On the delete-failed terminal status with a failed reason lookup,
the delete classification wraps the lookup error with the status. -/
theorem stackDeletedClassify_readErr (stack : Stack)
    (events : PagedEvents) (e : String)
    (hs : stringValue stack.stackStatus = StackStatusDeleteFailed)
    (he : events.pageErr = some e) :
    stackDeletedClassify stack events
      = some (.readInfoError msgDelete (stringValue stack.stackStatus) e) := by
  simp [stackDeletedClassify, getCloudFormationFailures,
    ListStackEventsForOperation, StackStatusDeleteFailed, hs, he]

/-- When the reason lookup fails, the create classification never
carries a reason list. -/
theorem stackCreatedClassify_no_reasons (stack : Stack)
    (events : PagedEvents) (e : String) (he : events.pageErr = some e) :
    ∀ er, stackCreatedClassify stack events = some er → er.reasonList = [] := by
  intro er h
  unfold stackCreatedClassify at h
  simp only [getCloudFormationRollbackReasons, getCloudFormationDeletionReasons,
    getCloudFormationFailures, ListStackEventsForOperation, he] at h
  split at h
  · cases h; rfl
  · split at h
    · cases h; rfl
    · split at h
      · cases h; rfl
      · cases h

/-- When the reason lookup fails, the update classification never
carries a reason list. -/
theorem stackUpdatedClassify_no_reasons (stack : Stack)
    (events : PagedEvents) (e : String) (he : events.pageErr = some e) :
    ∀ er, stackUpdatedClassify stack events = some er → er.reasonList = [] := by
  intro er h
  unfold stackUpdatedClassify at h
  simp only [getCloudFormationRollbackReasons, ListStackEventsForOperation,
    he] at h
  split at h
  · cases h; rfl
  · cases h

/-- When the reason lookup fails, the delete classification never
carries a reason list. -/
theorem stackDeletedClassify_no_reasons (stack : Stack)
    (events : PagedEvents) (e : String) (he : events.pageErr = some e) :
    ∀ er, stackDeletedClassify stack events = some er → er.reasonList = [] := by
  intro er h
  unfold stackDeletedClassify at h
  simp only [getCloudFormationFailures, ListStackEventsForOperation, he] at h
  split at h
  · cases h; rfl
  · cases h

/-- Snapshot of a stack still being created. -/
def pendingStackSnapshot : Stack := ⟨some "CREATE_IN_PROGRESS"⟩

/-- Poll script that stays pending past a timeout of 2 units. -/
def timeoutPolls : List (Except String Stack) :=
  [.ok pendingStackSnapshot, .ok pendingStackSnapshot, .ok pendingStackSnapshot]

/-- An events API with no pages and no paging error. -/
def emptyEvents : PagedEvents := ⟨[], none⟩

/-- C1 counterexample: a stack-create wait that times out after a
successful poll.  The wait itself ends holding the last observed
snapshot, but `StackCreated` returns a nil snapshot alongside the
timeout error — the last snapshot is not returned to the caller, contra
the claim. -/
theorem C1_counterexample :
    (WaitForState stackCreatedPolicy.pending stackCreatedPolicy.target 2
        stackRefreshStatus timeoutPolls).1 = some pendingStackSnapshot
      ∧ StackCreated 2 timeoutPolls emptyEvents
          = (none,
             some (.waitError ⟨.timedOut (some "CREATE_IN_PROGRESS"), none⟩)) := by
  constructor <;> rfl

/-- C1 (amended): the last observed snapshot accompanies the
error/nil-error only where the source returns it — `ChangeSetCreated`
always passes the wait's raw snapshot through alongside the wait error,
while the stack create/update/delete waiters return the snapshot (with
nil or a classification error) only when the wait itself ends without
error; on a wait error (timeout, refresher failure, unexpected status)
they return a nil snapshot instead of the last observed one. -/
theorem C1_snapshot_return :
    (∀ polls : List (Except String DescribeChangeSetOutput),
      (ChangeSetCreated polls).1
        = (WaitForState changeSetCreatedPolicy.pending
            changeSetCreatedPolicy.target ChangeSetCreatedTimeout
            changeSetRefreshStatus polls).1)
    ∧ (∀ (t : Nat) (polls : List (Except String Stack))
        (events : PagedEvents) (o : Option Stack) (w : WaitErr),
        WaitForState stackCreatedPolicy.pending stackCreatedPolicy.target t
            stackRefreshStatus polls = (o, some w) →
        StackCreated t polls events = (none, some (.waitError w)))
    ∧ (∀ (t : Nat) (polls : List (Except String Stack))
        (events : PagedEvents) (stack : Stack),
        WaitForState stackCreatedPolicy.pending stackCreatedPolicy.target t
            stackRefreshStatus polls = (some stack, none) →
        (StackCreated t polls events).1 = some stack)
    ∧ (∀ (t : Nat) (polls : List (Except String Stack))
        (events : PagedEvents) (o : Option Stack) (w : WaitErr),
        WaitForState stackUpdatedPolicy.pending stackUpdatedPolicy.target t
            stackRefreshStatus polls = (o, some w) →
        StackUpdated t polls events = (none, some (.waitError w)))
    ∧ (∀ (t : Nat) (polls : List (Except String Stack))
        (events : PagedEvents) (stack : Stack),
        WaitForState stackUpdatedPolicy.pending stackUpdatedPolicy.target t
            stackRefreshStatus polls = (some stack, none) →
        (StackUpdated t polls events).1 = some stack)
    ∧ (∀ (t : Nat) (polls : List (Except String Stack))
        (events : PagedEvents) (o : Option Stack) (w : WaitErr),
        WaitForState stackDeletedPolicy.pending stackDeletedPolicy.target t
            stackRefreshStatus polls = (o, some w) →
        StackDeleted t polls events = (none, some (.waitError w)))
    ∧ (∀ (t : Nat) (polls : List (Except String Stack))
        (events : PagedEvents) (stack : Stack),
        WaitForState stackDeletedPolicy.pending stackDeletedPolicy.target t
            stackRefreshStatus polls = (some stack, none) →
        (StackDeleted t polls events).1 = some stack) := by
  refine ⟨ChangeSetCreated_fst, ?_, ?_, ?_, ?_, ?_, ?_⟩
  · intro t polls events o w h
    exact StackCreated_of_waitErr t polls events o w h
  · intro t polls events stack h
    rw [StackCreated_of_ok t polls events stack h]
  · intro t polls events o w h
    exact StackUpdated_of_waitErr t polls events o w h
  · intro t polls events stack h
    rw [StackUpdated_of_ok t polls events stack h]
  · intro t polls events o w h
    exact StackDeleted_of_waitErr t polls events o w h
  · intro t polls events stack h
    rw [StackDeleted_of_ok t polls events stack h]

/-- Witness for the amended C1: with no polls the update wait times out
at once and `StackUpdated` returns a nil snapshot with the timeout
error. -/
theorem C1_snapshot_return_witness :
    StackUpdated 0 [] emptyEvents
      = (none, some (.waitError ⟨.timedOut none, none⟩)) :=
  C1_snapshot_return.2.2.2.1 0 [] emptyEvents none ⟨.timedOut none, none⟩ rfl

/-- C6: whenever a wait reaches a recognized failure-class terminal
status and the secondary lookup of failure reasons itself fails, the
operation still returns a non-nil error that carries the primary
failure status and wraps the lookup error: each stack waiter returns
the read-failure wrapper naming the terminal status, and the stack-set
waiter attaches the listing error to the wait error (whose kind keeps
the primary failure information) as its last error. -/
theorem C6_secondary_failure_wrapped :
    (∀ (t : Nat) (polls : List (Except String Stack))
      (events : PagedEvents) (stack : Stack) (e : String),
      WaitForState stackCreatedPolicy.pending stackCreatedPolicy.target t
          stackRefreshStatus polls = (some stack, none) →
      events.pageErr = some e →
      (stringValue stack.stackStatus = StackStatusRollbackComplete ∨
       stringValue stack.stackStatus = StackStatusRollbackFailed) →
      (StackCreated t polls events).2
        = some (.readInfoError msgCreateRollback
            (stringValue stack.stackStatus) e))
    ∧ (∀ (t : Nat) (polls : List (Except String Stack))
        (events : PagedEvents) (stack : Stack) (e : String),
        WaitForState stackCreatedPolicy.pending stackCreatedPolicy.target t
            stackRefreshStatus polls = (some stack, none) →
        events.pageErr = some e →
        (stringValue stack.stackStatus = StackStatusDeleteComplete ∨
         stringValue stack.stackStatus = StackStatusDeleteFailed) →
        (StackCreated t polls events).2
          = some (.readInfoError msgCreateDelete
              (stringValue stack.stackStatus) e))
    ∧ (∀ (t : Nat) (polls : List (Except String Stack))
        (events : PagedEvents) (stack : Stack) (e : String),
        WaitForState stackCreatedPolicy.pending stackCreatedPolicy.target t
            stackRefreshStatus polls = (some stack, none) →
        events.pageErr = some e →
        stringValue stack.stackStatus = StackStatusCreateFailed →
        (StackCreated t polls events).2
          = some (.readInfoError msgCreate (stringValue stack.stackStatus) e))
    ∧ (∀ (t : Nat) (polls : List (Except String Stack))
        (events : PagedEvents) (stack : Stack) (e : String),
        WaitForState stackUpdatedPolicy.pending stackUpdatedPolicy.target t
            stackRefreshStatus polls = (some stack, none) →
        events.pageErr = some e →
        (stringValue stack.stackStatus = StackStatusUpdateRollbackComplete ∨
         stringValue stack.stackStatus = StackStatusUpdateRollbackFailed) →
        (StackUpdated t polls events).2
          = some (.readInfoError msgUpdate (stringValue stack.stackStatus) e))
    ∧ (∀ (t : Nat) (polls : List (Except String Stack))
        (events : PagedEvents) (stack : Stack) (e : String),
        WaitForState stackDeletedPolicy.pending stackDeletedPolicy.target t
            stackRefreshStatus polls = (some stack, none) →
        events.pageErr = some e →
        stringValue stack.stackStatus = StackStatusDeleteFailed →
        (StackDeleted t polls events).2
          = some (.readInfoError msgDelete (stringValue stack.stackStatus) e))
    ∧ (∀ (t : Nat) (polls : List (Except String StackSetOperation))
        (name opId : String) (results : ResultsApi)
        (output : StackSetOperation) (w : WaitErr) (e : String),
        WaitForState stackSetOperationPolicy.pending
            stackSetOperationPolicy.target t stackSetOperationRefreshStatus
            polls = (some output, some w) →
        w.lastError = none →
        stringValue output.status = StackSetOperationStatusFailed →
        results.pageErr = some e →
        (StackSetOperationSucceeded t polls name opId results).2
          = some ⟨w.kind, some (.listResultsError name opId e)⟩) := by
  refine ⟨?_, ?_, ?_, ?_, ?_, ?_⟩
  · intro t polls events stack e hw he hs
    rw [StackCreated_of_ok t polls events stack hw]
    exact stackCreatedClassify_rollback_readErr stack events e hs he
  · intro t polls events stack e hw he hs
    rw [StackCreated_of_ok t polls events stack hw]
    exact stackCreatedClassify_delete_readErr stack events e hs he
  · intro t polls events stack e hw he hs
    rw [StackCreated_of_ok t polls events stack hw]
    exact stackCreatedClassify_createFailed_readErr stack events e hs he
  · intro t polls events stack e hw he hs
    rw [StackUpdated_of_ok t polls events stack hw]
    exact stackUpdatedClassify_readErr stack events e hs he
  · intro t polls events stack e hw he hs
    rw [StackDeleted_of_ok t polls events stack hw]
    exact stackDeletedClassify_readErr stack events e hs he
  · intro t polls name opId results output w e hw hlast hs he
    unfold StackSetOperationSucceeded
    rw [hw]
    simp [ListStackSetOperationResultsPages, setLastError,
      StackSetOperationStatusFailed, hs, he, hlast]

/-- Snapshot of a stack whose deletion failed. -/
def deleteFailedStackSnapshot : Stack := ⟨some "DELETE_FAILED"⟩

/-- Witness for C6: a delete wait that immediately reaches DELETE_FAILED
with a broken events API returns the read-failure wrapper naming the
status and the lookup error. -/
theorem C6_secondary_failure_wrapped_witness :
    (StackDeleted 1 [Except.ok deleteFailedStackSnapshot]
        ⟨[], some "events api down"⟩).2
      = some (.readInfoError msgDelete
          (stringValue deleteFailedStackSnapshot.stackStatus)
          "events api down") :=
  C6_secondary_failure_wrapped.2.2.2.2.1 1
    [Except.ok deleteFailedStackSnapshot] ⟨[], some "events api down"⟩
    deleteFailedStackSnapshot "events api down" rfl rfl rfl

/-- C7: whenever the event listing behind a failure-reason lookup ends
with a paging error, no accumulated reason string reaches the error a
stack waiter returns — every error the waiter can return in that
situation carries an empty reason list. -/
theorem C7_partial_reasons_discarded :
    (∀ (t : Nat) (polls : List (Except String Stack))
      (events : PagedEvents) (e : String),
      events.pageErr = some e →
      ∀ er, (StackCreated t polls events).2 = some er → er.reasonList = [])
    ∧ (∀ (t : Nat) (polls : List (Except String Stack))
        (events : PagedEvents) (e : String),
        events.pageErr = some e →
        ∀ er, (StackUpdated t polls events).2 = some er → er.reasonList = [])
    ∧ (∀ (t : Nat) (polls : List (Except String Stack))
        (events : PagedEvents) (e : String),
        events.pageErr = some e →
        ∀ er, (StackDeleted t polls events).2 = some er → er.reasonList = []) := by
  refine ⟨?_, ?_, ?_⟩
  · intro t polls events e he er h2
    rcases hw : WaitForState stackCreatedPolicy.pending
        stackCreatedPolicy.target t stackRefreshStatus polls with ⟨o, werr⟩
    cases werr with
    | some w =>
      rw [StackCreated_of_waitErr t polls events o w hw] at h2
      cases h2; rfl
    | none =>
      cases o with
      | none =>
        unfold StackCreated at h2
        rw [hw] at h2
        cases h2
      | some stack =>
        rw [StackCreated_of_ok t polls events stack hw] at h2
        exact stackCreatedClassify_no_reasons stack events e he er h2
  · intro t polls events e he er h2
    rcases hw : WaitForState stackUpdatedPolicy.pending
        stackUpdatedPolicy.target t stackRefreshStatus polls with ⟨o, werr⟩
    cases werr with
    | some w =>
      rw [StackUpdated_of_waitErr t polls events o w hw] at h2
      cases h2; rfl
    | none =>
      cases o with
      | none =>
        unfold StackUpdated at h2
        rw [hw] at h2
        cases h2
      | some stack =>
        rw [StackUpdated_of_ok t polls events stack hw] at h2
        exact stackUpdatedClassify_no_reasons stack events e he er h2
  · intro t polls events e he er h2
    rcases hw : WaitForState stackDeletedPolicy.pending
        stackDeletedPolicy.target t stackRefreshStatus polls with ⟨o, werr⟩
    cases werr with
    | some w =>
      rw [StackDeleted_of_waitErr t polls events o w hw] at h2
      cases h2; rfl
    | none =>
      cases o with
      | none =>
        unfold StackDeleted at h2
        rw [hw] at h2
        cases h2
      | some stack =>
        rw [StackDeleted_of_ok t polls events stack hw] at h2
        exact stackDeletedClassify_no_reasons stack events e he er h2

/-- Snapshot of a stack whose creation failed. -/
def createFailedStackSnapshot : Stack := ⟨some "CREATE_FAILED"⟩

/-- Witness for C7: a create wait reaching CREATE_FAILED with a broken
events API returns an error carrying no reason strings. -/
theorem C7_partial_reasons_discarded_witness :
    (CfnError.readInfoError msgCreate
      (stringValue createFailedStackSnapshot.stackStatus)
      "page 2 failed").reasonList = [] :=
  C7_partial_reasons_discarded.1 1 [Except.ok createFailedStackSnapshot]
    ⟨[], some "page 2 failed"⟩ "page 2 failed" rfl
    (CfnError.readInfoError msgCreate
      (stringValue createFailedStackSnapshot.stackStatus) "page 2 failed")
    rfl

/-- C9: whenever the change-set wait yields a raw output of the expected
type, `ChangeSetCreated` returns that output to the caller — also when
the wait error is non-nil — and when the output's status is the
change-set FAILED status the output's status reason is attached to the
returned wait error as its last error; the stack waiters, by contrast,
return a nil snapshot whenever the wait errs. -/
theorem C9_changeset_output_passthrough :
    (∀ (polls : List (Except String DescribeChangeSetOutput))
      (output : DescribeChangeSetOutput) (werr : Option WaitErr),
      WaitForState changeSetCreatedPolicy.pending changeSetCreatedPolicy.target
          ChangeSetCreatedTimeout changeSetRefreshStatus polls
        = (some output, werr) →
      (ChangeSetCreated polls).1 = some output
        ∧ (stringValue output.status = ChangeSetStatusFailed →
            (ChangeSetCreated polls).2
              = setLastError werr
                  (.statusReason (stringValue output.statusReason)))
        ∧ (stringValue output.status ≠ ChangeSetStatusFailed →
            (ChangeSetCreated polls).2 = werr))
    ∧ (∀ (t : Nat) (polls : List (Except String Stack))
        (events : PagedEvents) (o : Option Stack) (w : WaitErr),
        WaitForState stackCreatedPolicy.pending stackCreatedPolicy.target t
            stackRefreshStatus polls = (o, some w) →
        (StackCreated t polls events).1 = none)
    ∧ (∀ (t : Nat) (polls : List (Except String Stack))
        (events : PagedEvents) (o : Option Stack) (w : WaitErr),
        WaitForState stackUpdatedPolicy.pending stackUpdatedPolicy.target t
            stackRefreshStatus polls = (o, some w) →
        (StackUpdated t polls events).1 = none)
    ∧ (∀ (t : Nat) (polls : List (Except String Stack))
        (events : PagedEvents) (o : Option Stack) (w : WaitErr),
        WaitForState stackDeletedPolicy.pending stackDeletedPolicy.target t
            stackRefreshStatus polls = (o, some w) →
        (StackDeleted t polls events).1 = none) := by
  refine ⟨?_, ?_, ?_, ?_⟩
  · intro polls output werr hw
    refine ⟨?_, ?_, ?_⟩
    · rw [ChangeSetCreated_fst, hw]
    · intro hs
      unfold ChangeSetCreated
      rw [hw]
      simp [ChangeSetStatusFailed, hs]
    · intro hs
      unfold ChangeSetCreated
      rw [hw]
      simp only [beq_iff_eq]
      rw [if_neg hs]
  · intro t polls events o w h
    rw [StackCreated_of_waitErr t polls events o w h]
  · intro t polls events o w h
    rw [StackUpdated_of_waitErr t polls events o w h]
  · intro t polls events o w h
    rw [StackDeleted_of_waitErr t polls events o w h]

/-- A change set whose creation failed, with a status reason. -/
def failedChangeSet : DescribeChangeSetOutput :=
  ⟨some "FAILED", some "transform error"⟩

/-- Witness for C9: a change-set wait that immediately observes FAILED
(an unexpected state) still returns the output, with the status reason
attached to the wait error as its last error. -/
theorem C9_changeset_output_passthrough_witness :
    (ChangeSetCreated [Except.ok failedChangeSet]).1 = some failedChangeSet
      ∧ (ChangeSetCreated [Except.ok failedChangeSet]).2
          = setLastError (some ⟨.unexpectedState "FAILED", none⟩)
              (.statusReason (stringValue failedChangeSet.statusReason)) := by
  have h := C9_changeset_output_passthrough.1 [Except.ok failedChangeSet]
    failedChangeSet (some ⟨.unexpectedState "FAILED", none⟩) rfl
  exact ⟨h.1, h.2.1 rfl⟩

/-- C10: whenever `DescribeConnector` returns an error — of any kind —
the MSK connector read handler sets the resource ID to the empty string
(removing the connector from state) and returns the error diagnostics;
the state is repopulated (ID set from the connector ARN, attributes
rewritten) only when the describe call succeeds. -/
theorem C10_read_clears_state_on_error :
    (∀ (d : ResourceData) (err : String),
      resourceAwsMskConnectorRead d (.error err)
        = some (⟨"", d.attrs⟩, [Diag.fromErr err]))
    ∧ (∀ (d : ResourceData) (c : Connector) (arn : String),
        c.connectorArn = some arn →
        resourceAwsMskConnectorRead d (.ok c)
          = some
              (⟨arn,
                (connectorFields c).foldl (fun a kv => setAttr a kv.1 kv.2)
                  d.attrs⟩,
               [])) := by
  constructor
  · intro d err
    rfl
  · intro d c arn h
    simp [resourceAwsMskConnectorRead, h]

/-- Connector record used in the C10 witness. -/
def exampleConnector : Connector :=
  ⟨some "arn:aws:kafkaconnect:us-east-1:111111111111:connector/example",
   some "example", some "an example connector", some 2, some 4,
   some "IAM", some "TLS", some "b-1.example:9098", [some "sg-1"],
   [some "subnet-1", some "subnet-2"], some "2.7.1", none, none, none,
   none, some "arn:aws:iam::111111111111:role/service-role"⟩

/-- Witness for C10: a successful describe repopulates the state from
the connector. -/
theorem C10_read_clears_state_on_error_witness :
    resourceAwsMskConnectorRead ⟨"old-id", []⟩ (.ok exampleConnector)
      = some
          (⟨"arn:aws:kafkaconnect:us-east-1:111111111111:connector/example",
            (connectorFields exampleConnector).foldl
              (fun a kv => setAttr a kv.1 kv.2) []⟩,
           []) :=
  C10_read_clears_state_on_error.2 ⟨"old-id", []⟩ exampleConnector
    "arn:aws:kafkaconnect:us-east-1:111111111111:connector/example" rfl
